import Mathlib

/-!
A verification development for vcsnoop (src/vcsnoop.c), a tool that captures
the text of a Linux virtual console through the kernel console
selection/paste mechanism.  The C source is shallowly embedded: the relay
worker `rw_thread` becomes a state-passing loop over an environment trace of
poll/read/write outcomes, the `snoop` protocol becomes a straight-line trace
of console/terminal actions, the terminal echo guard (`init_tty` /
`restore_tty`) becomes a pure transition on a small world record, and the
CLI / device-validation logic of `main` becomes pure functions.
-/

/-- Linux errno value ETIME ("Timer expired"); `rw_thread` reports it when
the 1-second poll times out before any byte has been read. -/
def ETIME : Nat := 62

/-- Linux errno value EPIPE ("Broken pipe"). -/
def EPIPE : Nat := 32

/-- Linux errno value EIO_errno ("Input/output error"); `rw_thread` maps a short
write (`m != n`) to it. -/
def EIO_errno : Nat := 5

/-- Linux errno value ENOTTY ("Inappropriate ioctl for device"); `main`
reports it for a path that is not a console character device. -/
def ENOTTY : Nat := 25

/-- Linux signal number SIGPIPE. -/
def SIGPIPE : Nat := 13

/-- Outcome of the `write(STDOUT_FILENO, buf, n)` call for one chunk, as
supplied by the environment: `wrote m` models a return value `m >= 0`
(success iff `m` equals the chunk length), `werr e` models a return value
`< 0` with `errno = e`. -/
inductive WriteRes where
  | wrote (m : Nat)
  | werr (e : Nat)
  deriving DecidableEq

/-- Environment outcome of one iteration of the `rw_thread` loop: the
result of the `poll` call and, when readable, of the `read` call, plus the
write outcome the environment would give if a write were attempted.
`chunk data w` models `read` returning `data.length > 0` bytes. -/
inductive IterEvent where
  | pollErr (e : Nat)
  | pollTimeout
  | readEof
  | readErr (e : Nat)
  | chunk (data : List Nat) (w : WriteRes)
  deriving DecidableEq

/-- The local state of `rw_thread`: the `empty` flag (no bytes read yet),
the deferred `write_error` errno (0 = none), plus two observation fields:
`attempts` lists the chunks passed to `write` and `delivered` the bytes
the writes actually transferred to standard output. -/
structure RelayState where
  empty : Bool
  write_error : Nat
  attempts : List (List Nat)
  delivered : List Nat
  deriving DecidableEq

/-- How the `while (1)` loop of `rw_thread` ends: a fatal `xerror(ctx)`
with the given errno (the process prints the error and exits 1), or a
normal `break`. -/
inductive RelayExit where
  | fatal (ctx : String) (e : Nat)
  | brk
  deriving DecidableEq

/-- Final outcome of `rw_thread`: fatal `xerror`, `kill(0, SIGPIPE)`
delivered to the whole process group followed by a normal return, or a
plain normal return. -/
inductive RelayOutcome where
  | fatal (ctx : String) (e : Nat)
  | sigpipeGroup
  | ok
  deriving DecidableEq

/-- Initial `rw_thread` state: `empty = true`, `write_error = 0`. -/
def relay_init : RelayState :=
  { empty := true, write_error := 0, attempts := [], delivered := [] }

/-- One iteration of the `rw_thread` loop body on an environment event
(faithful to src/vcsnoop.c lines 93-118): poll error and read error call
`xerror`; timeout is fatal with ETIME iff `empty`, otherwise breaks;
`read == 0` breaks; a chunk clears `empty` and, when no write error has
been recorded yet, attempts the forwarding write, recording `errno` on a
failed write and EIO_errno on a short write. -/
def relay_step (s : RelayState) : IterEvent → RelayState ⊕ RelayExit
  | .pollErr e => .inr (.fatal "poll()" e)
  | .pollTimeout => if s.empty then .inr (.fatal "poll()" ETIME) else .inr .brk
  | .readEof => .inr .brk
  | .readErr e => .inr (.fatal "read()" e)
  | .chunk data w =>
      if s.write_error = 0 then
        match w with
        | .werr e =>
            .inl { empty := false, write_error := e,
                   attempts := s.attempts ++ [data], delivered := s.delivered }
        | .wrote m =>
            .inl { empty := false,
                   write_error := if m = data.length then 0 else EIO_errno,
                   attempts := s.attempts ++ [data],
                   delivered := s.delivered ++ data.take m }
      else
        .inl { s with empty := false }

/-- Run the `rw_thread` loop against a finite environment trace; `none`
when the trace is exhausted before the loop would end. -/
def relay_run (s : RelayState) : List IterEvent → Option (RelayState × RelayExit)
  | [] => none
  | ev :: rest =>
      match relay_step s ev with
      | .inl s2 => relay_run s2 rest
      | .inr ex => some (s, ex)

/-- The whole `rw_thread` function (src/vcsnoop.c lines 87-126): run the
loop, then the deferred write-error handling: EPIPE becomes
`kill(0, SIGPIPE)`, any other nonzero recorded error becomes a fatal
`xerror("write()")`. -/
def rw_thread (events : List IterEvent) : Option (RelayState × RelayOutcome) :=
  match relay_run relay_init events with
  | none => none
  | some (s, .fatal ctx e) => some (s, .fatal ctx e)
  | some (s, .brk) =>
      if s.write_error = EPIPE then some (s, .sigpipeGroup)
      else if s.write_error = 0 then some (s, .ok)
      else some (s, .fatal "write()" s.write_error)

/-- A run of chunks whose forwarding writes all fully succeed. -/
def goodEvents (cs : List (List Nat)) : List IterEvent :=
  cs.map (fun c => .chunk c (.wrote c.length))

/-- A run of chunks with arbitrary would-be write outcomes (used after a
write failure, when no write is attempted any more). -/
def discardEvents (ps : List (List Nat × WriteRes)) : List IterEvent :=
  ps.map (fun p => .chunk p.1 p.2)

/-- The error code `rw_thread` records for a chunk's write outcome:
the errno for a failed write, EIO_errno for a short write, 0 for full success. -/
def failCode (d : List Nat) : WriteRes → Nat
  | .werr e => e
  | .wrote m => if m = d.length then 0 else EIO_errno

/-- The bytes of a chunk that the write outcome actually transferred. -/
def partBytes (d : List Nat) : WriteRes → List Nat
  | .werr _ => []
  | .wrote m => d.take m

lemma relay_run_good (cs : List (List Nat)) (s : RelayState) (rest : List IterEvent)
    (h : s.write_error = 0) :
    relay_run s (goodEvents cs ++ rest) =
      relay_run { empty := s.empty && cs.isEmpty, write_error := 0,
                  attempts := s.attempts ++ cs,
                  delivered := s.delivered ++ cs.flatten } rest := by
  induction cs generalizing s with
  | nil =>
      cases s
      simp_all [goodEvents]
  | cons c cs ih =>
      have hstep : relay_step s (.chunk c (.wrote c.length)) =
          .inl { empty := false, write_error := 0,
                 attempts := s.attempts ++ [c], delivered := s.delivered ++ c } := by
        simp [relay_step, h]
      have hrun : relay_run s (goodEvents (c :: cs) ++ rest) =
          relay_run { empty := false, write_error := 0,
                      attempts := s.attempts ++ [c],
                      delivered := s.delivered ++ c } (goodEvents cs ++ rest) := by
        simp [goodEvents, relay_run, hstep]
      rw [hrun,
        ih { empty := false, write_error := 0,
             attempts := s.attempts ++ [c], delivered := s.delivered ++ c } rfl]
      simp

lemma relay_run_discard (ps : List (List Nat × WriteRes)) (s : RelayState)
    (rest : List IterEvent) (h : ¬ s.write_error = 0) :
    relay_run s (discardEvents ps ++ rest) =
      relay_run { s with empty := s.empty && ps.isEmpty } rest := by
  induction ps generalizing s with
  | nil =>
      cases s
      simp_all [discardEvents]
  | cons p ps ih =>
      have hstep : relay_step s (.chunk p.1 p.2) = .inl { s with empty := false } := by
        simp [relay_step, h]
      have hrun : relay_run s (discardEvents (p :: ps) ++ rest) =
          relay_run { s with empty := false } (discardEvents ps ++ rest) := by
        simp [discardEvents, relay_run, hstep]
      rw [hrun, ih { s with empty := false } h]
      simp

lemma relay_run_cons_inl (s s2 : RelayState) (ev : IterEvent)
    (rest : List IterEvent) (h : relay_step s ev = .inl s2) :
    relay_run s (ev :: rest) = relay_run s2 rest := by
  simp [relay_run, h]

lemma relay_run_end (s : RelayState) (rest : List IterEvent) (endEv : IterEvent)
    (he : s.empty = false)
    (hend : endEv = .pollTimeout ∨ endEv = .readEof) :
    relay_run s (endEv :: rest) = some (s, .brk) := by
  rcases hend with h | h <;> subst h <;> simp [relay_run, relay_step, he]

/-- Claim C1: in the relay worker loop, when the 1-second readability wait
times out, the worker fails fatally with the timer-specific error code
ETIME via `xerror("poll()")` if no bytes have been read yet during this
invocation (a timeout is then necessarily the first loop event), while if
at least one byte has already been read the loop terminates with a normal
`break`. -/
theorem relay_timeout_behavior (good : List (List Nat))
    (rest rest2 : List IterEvent) (h : good ≠ []) :
    rw_thread (.pollTimeout :: rest) = some (relay_init, .fatal "poll()" ETIME) ∧
    relay_run relay_init (goodEvents good ++ .pollTimeout :: rest2) =
      some ({ empty := false, write_error := 0, attempts := good,
              delivered := good.flatten }, .brk) := by
  constructor
  · simp [rw_thread, relay_run, relay_step, relay_init]
  · rw [relay_run_good good relay_init _ rfl]
    have hne : good.isEmpty = false := by
      cases good
      · exact absurd rfl h
      · rfl
    rw [relay_run_end _ _ _ (by simp [relay_init, hne]) (Or.inl rfl)]
    simp [relay_init, hne]

/-- Witness for C1 at the one-chunk trace `[104]` and the empty trace. -/
theorem relay_timeout_behavior_witness :
    ([[104]] : List (List Nat)) ≠ [] ∧
    (rw_thread (.pollTimeout :: []) = some (relay_init, .fatal "poll()" ETIME) ∧
     relay_run relay_init (goodEvents [[104]] ++ .pollTimeout :: []) =
       some ({ empty := false, write_error := 0, attempts := [[104]],
               delivered := List.flatten [[104]] }, .brk)) :=
  ⟨by decide, relay_timeout_behavior [[104]] [] [] (by decide)⟩

/-- Claim C2: if a forwarding write fails with EPIPE, the relay worker does
not abort the read loop at that point: it records the condition, keeps
reading (and discarding) chunks until the loop ends by timeout or
end-of-file, and only then delivers SIGPIPE to the whole process group
(outcome `sigpipeGroup`, the `kill(0, SIGPIPE)` branch) instead of a fatal
printed error; every chunk read before the failure was attempted for
forwarding. -/
theorem relay_epipe_deferred (good : List (List Nat)) (d : List Nat)
    (more : List (List Nat × WriteRes)) (endEv : IterEvent)
    (hend : endEv = .pollTimeout ∨ endEv = .readEof) :
    rw_thread (goodEvents good ++
        .chunk d (.werr EPIPE) :: (discardEvents more ++ [endEv])) =
      some ({ empty := false, write_error := EPIPE,
              attempts := good ++ [d], delivered := good.flatten },
            .sigpipeGroup) := by
  unfold rw_thread
  rw [relay_run_good good relay_init _ rfl]
  have hstep : relay_step
      { empty := relay_init.empty && good.isEmpty, write_error := 0,
        attempts := relay_init.attempts ++ good,
        delivered := relay_init.delivered ++ good.flatten }
      (.chunk d (.werr EPIPE)) =
      .inl { empty := false, write_error := EPIPE,
             attempts := good ++ [d], delivered := good.flatten } := by
    simp [relay_step, relay_init]
  rw [relay_run_cons_inl _ _ _ _ hstep]
  rw [relay_run_discard more _ _ (by simp [EPIPE])]
  rw [relay_run_end _ _ _ (by simp) hend]
  simp [EPIPE]

/-- Witness for C2: two chunks forwarded, then an EPIPE write failure, one
discarded chunk, then the quiescence timeout. -/
theorem relay_epipe_deferred_witness :
    (IterEvent.pollTimeout = IterEvent.pollTimeout ∨
     IterEvent.pollTimeout = IterEvent.readEof) ∧
    rw_thread (goodEvents [[104, 105]] ++
        .chunk [119] (.werr EPIPE) ::
          (discardEvents [([120], .wrote 1)] ++ [IterEvent.pollTimeout])) =
      some ({ empty := false, write_error := EPIPE,
              attempts := [[104, 105]] ++ [[119]],
              delivered := List.flatten [[104, 105]] },
            .sigpipeGroup) :=
  ⟨Or.inl rfl,
   relay_epipe_deferred [[104, 105]] [119] [([120], .wrote 1)]
     IterEvent.pollTimeout (Or.inl rfl)⟩

/-- Claim C9: if the forwarding write succeeds but transfers fewer bytes
than were read (`m != n` with no error code), the relay worker records the
generic I/O error EIO and, after the read loop exits, fails fatally with
`xerror("write()")` rather than silently continuing. -/
theorem relay_short_write_error (good : List (List Nat)) (d : List Nat)
    (m : Nat) (more : List (List Nat × WriteRes)) (endEv : IterEvent)
    (hend : endEv = .pollTimeout ∨ endEv = .readEof)
    (hm : m < d.length) :
    rw_thread (goodEvents good ++
        .chunk d (.wrote m) :: (discardEvents more ++ [endEv])) =
      some ({ empty := false, write_error := EIO_errno,
              attempts := good ++ [d],
              delivered := good.flatten ++ d.take m },
            .fatal "write()" EIO_errno) := by
  unfold rw_thread
  rw [relay_run_good good relay_init _ rfl]
  have hstep : relay_step
      { empty := relay_init.empty && good.isEmpty, write_error := 0,
        attempts := relay_init.attempts ++ good,
        delivered := relay_init.delivered ++ good.flatten }
      (.chunk d (.wrote m)) =
      .inl { empty := false, write_error := EIO_errno,
             attempts := good ++ [d],
             delivered := good.flatten ++ d.take m } := by
    simp [relay_step, relay_init, Nat.ne_of_lt hm]
  rw [relay_run_cons_inl _ _ _ _ hstep]
  rw [relay_run_discard more _ _ (by simp [EIO_errno])]
  rw [relay_run_end _ _ _ (by simp) hend]
  simp [EIO_errno, EPIPE]

/-- Witness for C9: one chunk forwarded, then a short write (1 of 2
bytes), then the quiescence timeout. -/
theorem relay_short_write_error_witness :
    (IterEvent.pollTimeout = IterEvent.pollTimeout ∨
     IterEvent.pollTimeout = IterEvent.readEof) ∧
    1 < ([1, 2] : List Nat).length ∧
    rw_thread (goodEvents [[9]] ++
        .chunk [1, 2] (.wrote 1) ::
          (discardEvents [] ++ [IterEvent.pollTimeout])) =
      some ({ empty := false, write_error := EIO_errno,
              attempts := [[9]] ++ [[1, 2]],
              delivered := List.flatten [[9]] ++ ([1, 2] : List Nat).take 1 },
            .fatal "write()" EIO_errno) :=
  ⟨Or.inl rfl, by decide,
   relay_short_write_error [[9]] [1, 2] 1 [] IterEvent.pollTimeout
     (Or.inl rfl) (by decide)⟩

/-- Claim C10 (amended): once a forwarding write has failed for any reason,
the relay worker attempts no further writes — later chunks are read and
discarded — and only the code recorded for the first failure
(`failCode d w`) is acted on after the loop exits; standard output
receives exactly the chunks read before the first failure, in read order,
followed by the partial prefix of the failing chunk that the failing write
actually transferred (`partBytes d w`, empty when the write reported an
error). -/
theorem relay_first_failure_stops_writes (good : List (List Nat))
    (d : List Nat) (w : WriteRes) (more : List (List Nat × WriteRes))
    (endEv : IterEvent)
    (hend : endEv = .pollTimeout ∨ endEv = .readEof)
    (hfail : failCode d w ≠ 0) :
    rw_thread (goodEvents good ++
        .chunk d w :: (discardEvents more ++ [endEv])) =
      some ({ empty := false, write_error := failCode d w,
              attempts := good ++ [d],
              delivered := good.flatten ++ partBytes d w },
            if failCode d w = EPIPE then .sigpipeGroup
            else .fatal "write()" (failCode d w)) := by
  unfold rw_thread
  rw [relay_run_good good relay_init _ rfl]
  have hstep : relay_step
      { empty := relay_init.empty && good.isEmpty, write_error := 0,
        attempts := relay_init.attempts ++ good,
        delivered := relay_init.delivered ++ good.flatten }
      (.chunk d w) =
      .inl { empty := false, write_error := failCode d w,
             attempts := good ++ [d],
             delivered := good.flatten ++ partBytes d w } := by
    cases w with
    | werr e => simp [relay_step, relay_init, failCode, partBytes]
    | wrote m =>
        have hm : ¬ m = d.length := by
          intro hc
          exact hfail (by simp [failCode, hc])
        simp [relay_step, relay_init, failCode, partBytes, hm]
  rw [relay_run_cons_inl _ _ _ _ hstep]
  rw [relay_run_discard more _ _ hfail]
  rw [relay_run_end _ _ _ (by simp) hend]
  by_cases hp : failCode d w = EPIPE
  · simp [hp]
  · simp [hp, hfail]

/-- Witness for C10 (amended): a write failure with errno EPERM (1) after
one forwarded chunk, followed by a discarded chunk and end-of-file. -/
theorem relay_first_failure_stops_writes_witness :
    (IterEvent.readEof = IterEvent.pollTimeout ∨
     IterEvent.readEof = IterEvent.readEof) ∧
    failCode [7] (.werr 1) ≠ 0 ∧
    rw_thread (goodEvents [[5, 6]] ++
        .chunk [7] (.werr 1) ::
          (discardEvents [([8], .wrote 1)] ++ [IterEvent.readEof])) =
      some ({ empty := false, write_error := failCode [7] (.werr 1),
              attempts := [[5, 6]] ++ [[7]],
              delivered := List.flatten [[5, 6]] ++ partBytes [7] (.werr 1) },
            if failCode [7] (.werr 1) = EPIPE then .sigpipeGroup
            else .fatal "write()" (failCode [7] (.werr 1))) :=
  ⟨Or.inr rfl, by decide,
   relay_first_failure_stops_writes [[5, 6]] [7] (.werr 1) [([8], .wrote 1)]
     IterEvent.readEof (Or.inr rfl) (by decide)⟩

/-- Counterexample for C10 as stated: when the first failing write is a
short write (here 1 of 2 bytes transferred), standard output receives the
transferred prefix of the failing chunk as well, so it does not receive
exactly the chunks read before the first failure (which here are none). -/
theorem relay_short_write_partial_cex :
    rw_thread [.chunk [1, 2] (.wrote 1), .pollTimeout] =
      some ({ empty := false, write_error := EIO_errno,
              attempts := [[1, 2]], delivered := [1] },
            .fatal "write()" EIO_errno) ∧
    ([1] : List Nat) ≠ [] := by
  constructor
  · rfl
  · decide

/-- Terminal attributes (`struct termios`), reduced to the only field the
program touches, the local-mode flag word `c_lflag`. -/
structure Termios where
  c_lflag : Nat
  deriving DecidableEq

/-- The ECHO bit of `c_lflag` (0010 octal). -/
def ECHO : Nat := 8

/-- `c_lflag &= ~ECHO` on a 32-bit `tcflag_t`: mask with the complement of
ECHO, i.e. with 2^32 - 1 - 8. -/
def clearEcho (l : Nat) : Nat := l &&& 4294967287

/-- The process-wide guard globals of vcsnoop: `tty_fd` (-1 when nothing
is suspended) and `orig_tio` (the saved attributes). -/
structure TtyGuard where
  tty_fd : Int
  orig_tio : Termios
  deriving DecidableEq

/-- The guard globals together with the world they act on: the terminal's
actual attributes and a count of state-changing `tcsetattr` calls made. -/
structure TtyWorld where
  guard : TtyGuard
  attrs : Termios
  sets : Nat
  deriving DecidableEq

/-- `restore_tty` (src/vcsnoop.c lines 62-70), success path: no-op when
`tty_fd < 0`; otherwise one `tcsetattr(tty_fd, TCSAFLUSH, &orig_tio)`
reapplying the saved attributes, then `tty_fd = -1`. -/
def restore_tty (w : TtyWorld) : TtyWorld :=
  if w.guard.tty_fd < 0 then w
  else { guard := { tty_fd := -1, orig_tio := w.guard.orig_tio },
         attrs := w.guard.orig_tio, sets := w.sets + 1 }

/-- `init_tty(fd)` (src/vcsnoop.c lines 72-85), success path: `tcgetattr`,
save the attributes in `orig_tio`, clear ECHO, one
`tcsetattr(fd, TCSAFLUSH, ...)`, arm the guard with `tty_fd = fd`. -/
def init_tty (fd : Int) (w : TtyWorld) : TtyWorld :=
  { guard := { tty_fd := fd, orig_tio := w.attrs },
    attrs := { c_lflag := clearEcho w.attrs.c_lflag },
    sets := w.sets + 1 }

/-- Claim C6: Terminal Mode Guard idempotence.  Calling `restore_tty` when
nothing is suspended (`tty_fd < 0`) performs no operation; after a single
`init_tty` suspend on a real descriptor, the first `restore_tty` performs
exactly one attribute-set operation and restores the original attributes,
and a second `restore_tty` in succession changes nothing. -/
theorem tty_guard_restore_idempotent (w w2 : TtyWorld) (fd : Int)
    (hfd : 0 ≤ fd) (hw2 : w2.guard.tty_fd < 0) :
    restore_tty w2 = w2 ∧
    (restore_tty (init_tty fd w)).sets = (init_tty fd w).sets + 1 ∧
    (restore_tty (init_tty fd w)).attrs = w.attrs ∧
    restore_tty (restore_tty (init_tty fd w)) = restore_tty (init_tty fd w) := by
  have hnn : ¬ fd < 0 := not_lt.mpr hfd
  refine ⟨?_, ?_, ?_, ?_⟩
  · simp [restore_tty, hw2]
  · simp [restore_tty, init_tty, hnn]
  · simp [restore_tty, init_tty, hnn]
  · simp [restore_tty, init_tty, hnn]

/-- Witness for C6 at `fd = 3` and concrete worlds. -/
theorem tty_guard_restore_idempotent_witness :
    (0 : Int) ≤ 3 ∧
    (⟨⟨-1, ⟨0⟩⟩, ⟨10⟩, 0⟩ : TtyWorld).guard.tty_fd < 0 ∧
    (restore_tty ⟨⟨-1, ⟨0⟩⟩, ⟨10⟩, 0⟩ = (⟨⟨-1, ⟨0⟩⟩, ⟨10⟩, 0⟩ : TtyWorld) ∧
     (restore_tty (init_tty 3 ⟨⟨-1, ⟨0⟩⟩, ⟨10⟩, 0⟩)).sets =
       (init_tty 3 ⟨⟨-1, ⟨0⟩⟩, ⟨10⟩, 0⟩).sets + 1 ∧
     (restore_tty (init_tty 3 ⟨⟨-1, ⟨0⟩⟩, ⟨10⟩, 0⟩)).attrs =
       (⟨⟨-1, ⟨0⟩⟩, ⟨10⟩, 0⟩ : TtyWorld).attrs ∧
     restore_tty (restore_tty (init_tty 3 ⟨⟨-1, ⟨0⟩⟩, ⟨10⟩, 0⟩)) =
       restore_tty (init_tty 3 ⟨⟨-1, ⟨0⟩⟩, ⟨10⟩, 0⟩)) :=
  ⟨by decide, by decide,
   tty_guard_restore_idempotent ⟨⟨-1, ⟨0⟩⟩, ⟨10⟩, 0⟩ ⟨⟨-1, ⟨0⟩⟩, ⟨10⟩, 0⟩ 3
     (by decide) (by decide)⟩

/-- The selection descriptor `struct tiocl_selection`. -/
structure Selection where
  xs : Nat
  ys : Nat
  xe : Nat
  ye : Nat
  sel_mode : Nat
  deriving DecidableEq

/-- Selection mode TIOCL_SELLINE (line-by-line selection). -/
def TIOCL_SELLINE : Nat := 2

/-- SHRT_MAX from limits.h. -/
def SHRT_MAX : Nat := 32767

/-- The full-screen line-mode selection built in `snoop` (src/vcsnoop.c
lines 144-149): xs = ys = 1, xe = ye = SHRT_MAX, line mode. -/
def full_sel : Selection :=
  { xs := 1, ys := 1, xe := SHRT_MAX, ye := SHRT_MAX, sel_mode := TIOCL_SELLINE }

/-- `sigfillset`: the set of all Linux signal numbers 1..64. -/
def sigfillset_all : List Nat := (List.range 64).map (fun k => k + 1)

/-- `sigaddset`: add a signal number to a set. -/
def sigaddset (s : List Nat) (n : Nat) : List Nat :=
  if n ∈ s then s else s ++ [n]

/-- The mask blocked during the capture window (src/vcsnoop.c lines
154-157): `sigfillset` then `sigaddset(.., SIGPIPE)`. -/
def capture_sig_mask : List Nat := sigaddset sigfillset_all SIGPIPE

/-- One observable action of the `snoop` protocol against the kernel
console driver, the terminal, the signal mask, and the worker thread. -/
inductive VcAction where
  | openTTY
  | vtGetState
  | vtActivate (n : Nat)
  | vtWaitActive (n : Nat)
  | setSelection (sel : Selection)
  | sigBlock (mask : List Nat)
  | createWorker
  | initEcho
  | pasteSel
  | joinWorker
  | restoreEcho
  | sigUnblock (mask : List Nat)
  deriving DecidableEq

/-- `chvt(fd, n)` (src/vcsnoop.c lines 48-57): VT_ACTIVATE then
VT_WAITACTIVE. -/
def chvt_trace (n : Nat) : List VcAction :=
  [.vtActivate n, .vtWaitActive n]

/-- The success-path action trace of `snoop(n)` (src/vcsnoop.c lines
128-172) when the originally active console is `orig`: open /dev/tty,
VT_GETSTATE, switch to the target, submit the selection, switch back,
block the signal mask, create the relay worker, suspend echo, trigger the
paste, join the worker, restore the terminal, unblock the signal mask.
Any failing call aborts the process, so every run's trace is a prefix of
this list. -/
def snoop_trace (n orig : Nat) : List VcAction :=
  [.openTTY, .vtGetState] ++ chvt_trace n ++
  [.setSelection full_sel] ++ chvt_trace orig ++
  [.sigBlock capture_sig_mask, .createWorker, .initEcho, .pasteSel,
   .joinWorker, .restoreEcho, .sigUnblock capture_sig_mask]

/-- The console that is active after a list of actions, starting from
`init`: VT_ACTIVATE switches it. -/
def vt_after (init : Nat) (tr : List VcAction) : Nat :=
  tr.foldl (fun s a => match a with | .vtActivate m => m | _ => s) init

/-- Claim C3: the selection-region submission (position 4 of the snoop
trace) happens while the target console `n` is the active VT — after the
switch to the target (position 2), before the switch back (position 5) —
and the switch back to the original console completes (position 6) before
the paste injection is triggered (position 10), at which point the
original console is active again. -/
theorem selection_while_target_active (n orig : Nat) :
    (snoop_trace n orig)[4]? = some (.setSelection full_sel) ∧
    (snoop_trace n orig)[2]? = some (.vtActivate n) ∧
    vt_after orig ((snoop_trace n orig).take 4) = n ∧
    (snoop_trace n orig)[5]? = some (.vtActivate orig) ∧
    (snoop_trace n orig)[6]? = some (.vtWaitActive orig) ∧
    (snoop_trace n orig)[10]? = some .pasteSel ∧
    vt_after orig ((snoop_trace n orig).take 10) = orig :=
  ⟨rfl, rfl, rfl, rfl, rfl, rfl, rfl⟩

/-- Witness for C3 at target console 5, original console 1. -/
theorem selection_while_target_active_witness :
    (snoop_trace 5 1)[4]? = some (.setSelection full_sel) ∧
    (snoop_trace 5 1)[2]? = some (.vtActivate 5) ∧
    vt_after 1 ((snoop_trace 5 1).take 4) = 5 ∧
    (snoop_trace 5 1)[5]? = some (.vtActivate 1) ∧
    (snoop_trace 5 1)[6]? = some (.vtWaitActive 1) ∧
    (snoop_trace 5 1)[10]? = some .pasteSel ∧
    vt_after 1 ((snoop_trace 5 1).take 10) = 1 :=
  selection_while_target_active 5 1

/-- Claim C7: the paste injection (position 10) is triggered only after
the relay worker thread has been created (position 8) and the echo
suspension applied (position 9): the paste action does not occur anywhere
in the trace before position 10, while the worker creation does. -/
theorem paste_after_worker_start (n orig : Nat) :
    (snoop_trace n orig)[8]? = some .createWorker ∧
    (snoop_trace n orig)[9]? = some .initEcho ∧
    (snoop_trace n orig)[10]? = some .pasteSel ∧
    VcAction.pasteSel ∉ (snoop_trace n orig).take 10 ∧
    VcAction.createWorker ∈ (snoop_trace n orig).take 10 ∧
    VcAction.initEcho ∈ (snoop_trace n orig).take 10 := by
  refine ⟨rfl, rfl, rfl, ?_, ?_, ?_⟩ <;>
    simp [snoop_trace, chvt_trace]

/-- Witness for C7 at target console 3, original console 2. -/
theorem paste_after_worker_start_witness :
    (snoop_trace 3 2)[8]? = some .createWorker ∧
    (snoop_trace 3 2)[9]? = some .initEcho ∧
    (snoop_trace 3 2)[10]? = some .pasteSel ∧
    VcAction.pasteSel ∉ (snoop_trace 3 2).take 10 ∧
    VcAction.createWorker ∈ (snoop_trace 3 2).take 10 ∧
    VcAction.initEcho ∈ (snoop_trace 3 2).take 10 :=
  paste_after_worker_start 3 2

/-- Counterexample for C4 as stated: the claim says SIGPIPE is left
unblocked during the capture window, but the mask the code blocks before
creating the worker (`sigfillset` plus an explicit
`sigaddset(.., SIGPIPE)`) does contain SIGPIPE. -/
theorem sigpipe_blocked_cex :
    (snoop_trace 2 1)[7]? = some (.sigBlock capture_sig_mask) ∧
    SIGPIPE ∈ capture_sig_mask :=
  ⟨rfl, by decide⟩

/-- Claim C4 (amended): during the capture window the process blocks all
signals, SIGPIPE explicitly included, from before the relay worker starts
(mask blocked at position 7, worker created at position 8) until after the
worker is joined (position 11) and the terminal restored (position 12);
only then is the same mask — SIGPIPE included — unblocked (position 13),
so the worker's deferred `kill(0, SIGPIPE)` stays pending during the
window and standard broken-pipe termination semantics apply on unblock. -/
theorem capture_window_signal_mask (n orig : Nat) :
    SIGPIPE ∈ capture_sig_mask ∧
    (snoop_trace n orig)[7]? = some (.sigBlock capture_sig_mask) ∧
    (snoop_trace n orig)[8]? = some .createWorker ∧
    (snoop_trace n orig)[11]? = some .joinWorker ∧
    (snoop_trace n orig)[12]? = some .restoreEcho ∧
    (snoop_trace n orig)[13]? = some (.sigUnblock capture_sig_mask) :=
  ⟨by decide, rfl, rfl, rfl, rfl, rfl⟩

/-- The usage line printed by `show_usage` (src/vcsnoop.c line 29). -/
def usage_line : String := "Usage: vcsnoop /dev/ttyN"

/-- What `show_usage(stdout)` prints: the usage line and the options
block (src/vcsnoop.c lines 27-37). -/
def usage_stdout_text : String :=
  usage_line ++ "\n" ++
    "\nOptions:\n  -h, --help  show this help message and exit\n"

/-- What `show_usage(fp)` prints for `fp != stdout`: the usage line
only. -/
def usage_stderr_text : String := usage_line ++ "\n"

/-- Result of the option-processing part of `main` (src/vcsnoop.c lines
176-197): help printed to stdout and exit 0; usage printed to stderr and
exit 1; or continue with the single positional argument. -/
inductive CliOutcome where
  | helpStdout
  | usageErr
  | run (path : List Char)
  deriving DecidableEq

/-- Exit code of the two terminating CLI outcomes: 0 for help, 1 for a
usage error; `none` when the program continues past argument parsing. -/
def cli_exit_code : CliOutcome → Option Nat
  | .helpStdout => some 0
  | .usageErr => some 1
  | .run _ => none

/-- How GNU `getopt` with option string `"h-:"` treats one `argv` word:
not an option; the `--` terminator; the `-h` option (first option char
`h`, possibly clustered); the `-` option with argument `"help"` (i.e.
`--help`); or anything else (an unknown option, or `--x` with
`x != help`), on which `main`'s switch falls to the default branch. -/
inductive OptClass where
  | notOpt
  | termin
  | optHelp
  | optLongHelp
  | optBad
  deriving DecidableEq

/-- Classify one `argv` word as GNU `getopt("h-:")` and `main`'s switch
do. -/
def classifyArg (a : List Char) : OptClass :=
  match a with
  | '-' :: '-' :: [] => .termin
  | '-' :: 'h' :: _ => .optHelp
  | '-' :: '-' :: cs => if cs = ['h', 'e', 'l', 'p'] then .optLongHelp else .optBad
  | '-' :: _ :: _ => .optBad
  | _ => .notOpt

/-- After option processing, `main` requires exactly one positional
argument (src/vcsnoop.c lines 192-197). -/
def cliFinish : List (List Char) → CliOutcome
  | [p] => .run p
  | _ => .usageErr

/-- The `getopt` loop of `main`: GNU permutation scans every word; the
first option word decides the outcome (`-h`/`--help` exit via help,
anything else via usage error), `--` ends option scanning, and non-option
words are collected as positional arguments. -/
def scanArgs : List (List Char) → List (List Char) → CliOutcome
  | [], pos => cliFinish pos
  | a :: rest, pos =>
      match classifyArg a with
      | .termin => cliFinish (pos ++ rest)
      | .optHelp => .helpStdout
      | .optLongHelp => .helpStdout
      | .optBad => .usageErr
      | .notOpt => scanArgs rest (pos ++ [a])

/-- Argument processing of `main` on the argument vector (without the
program name). -/
def parse_args (args : List String) : CliOutcome :=
  scanArgs (args.map (fun a => a.toList)) []

lemma cliFinish_ne_one (pos : List (List Char)) (h : pos.length ≠ 1) :
    cliFinish pos = .usageErr := by
  match pos with
  | [] => rfl
  | [p] => exact absurd rfl h
  | p :: q :: r => rfl

lemma scanArgs_nonopt (args : List (List Char)) :
    ∀ pos : List (List Char), (∀ x ∈ args, classifyArg x = .notOpt) →
      scanArgs args pos = cliFinish (pos ++ args) := by
  induction args with
  | nil => intro pos _; simp [scanArgs]
  | cons a rest ih =>
      intro pos h
      have ha : classifyArg a = .notOpt := h a (by simp)
      have hrest : ∀ x ∈ rest, classifyArg x = .notOpt :=
        fun x hx => h x (by simp [hx])
      rw [scanArgs]
      rw [ha]
      rw [ih (pos ++ [a]) hrest]
      simp

/-- Claim C8: CLI contract.  `-h` and `--help` lead to the help outcome
(usage text on standard output, whose first line is the usage line, exit
code 0); an unknown option, or an invocation made of non-option words
whose count differs from one, leads to the usage-error outcome (usage on
standard error, exit code 1). -/
theorem cli_contract (a : String) (args : List String)
    (ha : classifyArg a.toList = .optBad)
    (hargs : ∀ x ∈ args, classifyArg x.toList = .notOpt)
    (hn : args.length ≠ 1) :
    parse_args ["-h"] = .helpStdout ∧
    parse_args ["--help"] = .helpStdout ∧
    cli_exit_code .helpStdout = some 0 ∧
    (∃ rest, usage_stdout_text = usage_line ++ "\n" ++ rest) ∧
    usage_stderr_text = usage_line ++ "\n" ∧
    parse_args [a] = .usageErr ∧
    parse_args args = .usageErr ∧
    cli_exit_code .usageErr = some 1 := by
  refine ⟨by decide, by decide, rfl, ⟨_, rfl⟩, rfl, ?_, ?_, rfl⟩
  · have ha2 : classifyArg a.data = .optBad := ha
    simp [parse_args, scanArgs, ha2]
  · have hmap : ∀ x ∈ args.map (fun a => a.toList), classifyArg x = .notOpt := by
      intro x hx
      rcases List.mem_map.mp hx with ⟨y, hy, rfl⟩
      exact hargs y hy
    rw [parse_args, scanArgs_nonopt _ [] hmap]
    apply cliFinish_ne_one
    simpa using hn

/-- Witness for C8 at the unknown option `-x` and the two-positional
invocation `a b`. -/
theorem cli_contract_witness :
    classifyArg ("-x".toList) = .optBad ∧
    (∀ x ∈ (["a", "b"] : List String), classifyArg x.toList = .notOpt) ∧
    (["a", "b"] : List String).length ≠ 1 ∧
    (parse_args ["-h"] = .helpStdout ∧
     parse_args ["--help"] = .helpStdout ∧
     cli_exit_code .helpStdout = some 0 ∧
     (∃ rest, usage_stdout_text = usage_line ++ "\n" ++ rest) ∧
     usage_stderr_text = usage_line ++ "\n" ∧
     parse_args ["-x"] = .usageErr ∧
     parse_args ["a", "b"] = .usageErr ∧
     cli_exit_code .usageErr = some 1) :=
  ⟨by decide, by decide, by decide,
   cli_contract "-x" ["a", "b"] (by decide) (by decide) (by decide)⟩

/-- The mode/device fields of `struct stat` that `main` inspects, with
`major`/`minor` already extracted from `st_rdev`. -/
structure StatBuf where
  st_mode : Nat
  rdev_major : Nat
  rdev_minor : Nat
  deriving DecidableEq

/-- S_IFMT, the file-type mask (0170000 octal). -/
def S_IFMT : Nat := 61440

/-- S_IFCHR, the character-device file type (0020000 octal). -/
def S_IFCHR : Nat := 8192

/-- TTY_MAJOR from linux/major.h: the kernel text-console major. -/
def TTY_MAJOR : Nat := 4

/-- MIN_NR_CONSOLES from linux/vt.h. -/
def MIN_NR_CONSOLES : Nat := 1

/-- MAX_NR_CONSOLES from linux/vt.h. -/
def MAX_NR_CONSOLES : Nat := 63

/-- What `main` does after a successful `stat` of the positional path:
proceed into `snoop(minor)`, or jump to `baddev`, which sets
`errno = ENOTTY` and calls `xerror(path)`. -/
inductive MainAfterStat where
  | proceed (n : Nat)
  | fatalPath (e : Nat)
  deriving DecidableEq

/-- The device checks of `main` (src/vcsnoop.c lines 198-214): the mode
must be a character device, the device major must be TTY_MAJOR, and the
minor must lie in [MIN_NR_CONSOLES, MAX_NR_CONSOLES]; any violation goes
to `baddev` (ENOTTY); otherwise `snoop` runs on the minor. -/
def check_device (sb : StatBuf) : MainAfterStat :=
  if sb.st_mode &&& S_IFMT ≠ S_IFCHR then .fatalPath ENOTTY
  else if sb.rdev_major ≠ TTY_MAJOR then .fatalPath ENOTTY
  else if sb.rdev_minor < MIN_NR_CONSOLES then .fatalPath ENOTTY
  else if sb.rdev_minor > MAX_NR_CONSOLES then .fatalPath ENOTTY
  else .proceed sb.rdev_minor

/-- The exit behavior of the two `MainAfterStat` outcomes: `xerror` exits
with code 1; on `proceed` the program continues into `snoop`. -/
def after_stat_exit : MainAfterStat → Option Nat
  | .proceed _ => none
  | .fatalPath _ => some 1

/-- Claim C5: for a path that stats successfully, `main` proceeds into the
snoop protocol if and only if the path is a character device on the
text-console major with a minor in the legal console-index range; exactly
otherwise it fails with the ENOTTY classification against the path and
exit code 1 — without performing any console or terminal action, since
`check_device` returns before `snoop` is ever entered. -/
theorem device_validation (sb : StatBuf) :
    (check_device sb = .proceed sb.rdev_minor ↔
      (sb.st_mode &&& S_IFMT = S_IFCHR ∧ sb.rdev_major = TTY_MAJOR ∧
       MIN_NR_CONSOLES ≤ sb.rdev_minor ∧ sb.rdev_minor ≤ MAX_NR_CONSOLES)) ∧
    (check_device sb = .fatalPath ENOTTY ↔
      ¬(sb.st_mode &&& S_IFMT = S_IFCHR ∧ sb.rdev_major = TTY_MAJOR ∧
        MIN_NR_CONSOLES ≤ sb.rdev_minor ∧ sb.rdev_minor ≤ MAX_NR_CONSOLES)) ∧
    after_stat_exit (.fatalPath ENOTTY) = some 1 ∧
    after_stat_exit (.proceed sb.rdev_minor) = none := by
  unfold check_device
  split_ifs with h1 h2 h3 h4 <;>
    simp_all [MIN_NR_CONSOLES, MAX_NR_CONSOLES, after_stat_exit] <;>
    omega

/-- Witness for C5: a regular file (mode 0100644 octal) is rejected with
ENOTTY, and /dev/tty5 (character device, major 4, minor 5) proceeds. -/
theorem device_validation_witness :
    (check_device ⟨33188, 8, 1⟩ = .fatalPath ENOTTY ↔
      ¬((33188 : Nat) &&& S_IFMT = S_IFCHR ∧ (8 : Nat) = TTY_MAJOR ∧
        MIN_NR_CONSOLES ≤ (1 : Nat) ∧ (1 : Nat) ≤ MAX_NR_CONSOLES)) ∧
    (check_device ⟨8612, 4, 5⟩ = .proceed 5 ↔
      ((8612 : Nat) &&& S_IFMT = S_IFCHR ∧ (4 : Nat) = TTY_MAJOR ∧
       MIN_NR_CONSOLES ≤ (5 : Nat) ∧ (5 : Nat) ≤ MAX_NR_CONSOLES)) :=
  ⟨(device_validation ⟨33188, 8, 1⟩).2.1, (device_validation ⟨8612, 4, 5⟩).1⟩
